import Mathlib

/-!
Verification of the cluster-manager core of weave-gitops
(`core/clustersmngr/factory.go`), shallowly embedded in Lean 4.

The manager (`clustersManager`) is embedded from the source file.  Its
collaborators (the `Clusters` registry, the three caches, the clients pool
and `NewClient`) live in files of the repository that are not part of the
sources at hand; those are modelled from the specification, each marked by
a doc comment starting with `Modelled from the spec:`.

Go `nil` values are rendered as `Option.none`, Go `error` results as
`Option GoError`/`Except String`, machine pointers as unique `Nat` ids,
and the per-request goroutine fan-out as a left-to-right fold (each task
touches only its own cluster's cache key and pool slot, so the join-barrier
result is order-independent; the theorems make the needed disjointness
explicit as hypotheses).
-/

namespace ClustersMngr

/-- Modelled from the spec: `cluster.Cluster` (package
`core/clustersmngr/cluster`, not among the sources).  Identity is the
cluster name; connection parameters and the control-plane marker play no
role in the claims, so only the name is carried.  The zero value has an
empty name, which is what `GetImpersonatedClientForCluster` tests for. -/
structure Cluster where
  name : String
deriving DecidableEq, Repr

/-- GetName accessor of `cluster.Cluster`. -/
def Cluster.GetName (c : Cluster) : String := c.name

/-- UserPrincipal (package `pkg/server/auth`): an externally authenticated
principal.  Only the `ID` field is consulted by the manager. -/
structure UserPrincipal where
  ID : String
deriving DecidableEq, Repr

/-- Abstract handle standing for a constructed controller-runtime
`client.Client` value. -/
structure ClientVal where
  handle : Nat
deriving DecidableEq, Repr

/-- A `v1.Namespace` record; only its name matters to the manager. -/
structure Namespace where
  name : String
deriving DecidableEq, Repr

/-- ClientError (factory.go): a per-cluster failure carrying the name of
the cluster that caused it and the underlying error message. -/
structure ClientError where
  ClusterName : String
  Err : String
deriving DecidableEq, Repr

/-- A Go `error` value as returned by the manager's operations: either a
plain message (`errors.New` / `fmt.Errorf`) or a `multierror` holding the
collected per-cluster `ClientError`s. -/
inductive GoError where
  | msg (s : String)
  | multi (errs : List ClientError)
deriving DecidableEq, Repr

/-- One per-cluster entry of the clients pool. -/
structure PoolEntry where
  clusterName : String
  client : ClientVal
deriving DecidableEq, Repr

/-- Modelled from the spec: the Aggregated Client returned by `NewClient`,
a façade over one client per cluster plus the namespace map attached for
its identity.  `NewClient` always yields such a value (never Go `nil`). -/
structure Client where
  pool : List PoolEntry
  nsMap : List (String × List Namespace)
deriving DecidableEq, Repr

/-- A registered cluster-change watcher: the `Nat` id models the Go
pointer identity of the `ClustersWatcher` allocation, `chanCap` the buffer
capacity of its `Updates` channel. -/
structure Watcher where
  id : Nat
  chanCap : Nat
deriving DecidableEq, Repr

/-- One `Notify` delivery: which watcher received which added/removed
cluster lists. -/
structure NotifyEvent where
  watcherId : Nat
  Added : List Cluster
  Removed : List Cluster
deriving DecidableEq, Repr

/-- Modelled from the spec: the User Client Cache (`UsersClients`), keyed
by (user id, cluster name).  TTL expiry is time-dependent and irrelevant
to the claims, so the cache is a plain association list. -/
def ClientCache := List ((String × String) × ClientVal)
deriving instance DecidableEq for ClientCache

/-- Lookup in an association-list cache keyed by (user id, cluster name). -/
def cacheGet (cache : ClientCache) (k : String × String) : Option ClientVal :=
  (cache.find? (fun p => p.1 == k)).map (·.2)

/-- Store into the cache, replacing any previous entry for the key. -/
def cacheSet (cache : ClientCache) (k : String × String) (v : ClientVal) : ClientCache :=
  (k, v) :: cache.filter (fun p => ¬ p.1 == k)

/-- Modelled from the spec: the Namespace Cache (`ClustersNamespaces`),
mapping cluster name to the most recent successfully listed namespaces. -/
def NsCache := List (String × List Namespace)
deriving instance DecidableEq for NsCache

/-- Get of `ClustersNamespaces`: the cached namespace list of a cluster,
empty if never listed. -/
def nsGet (cache : NsCache) (clusterName : String) : List Namespace :=
  match cache.find? (fun p => p.1 == clusterName) with
  | some p => p.2
  | none => []

/-- Set of `ClustersNamespaces`: store a cluster's namespace list. -/
def nsSet (cache : NsCache) (clusterName : String) (nss : List Namespace) : NsCache :=
  (clusterName, nss) :: cache.filter (fun p => ¬ p.1 == clusterName)

/-- Modelled from the spec: the User Namespace Cache (`UsersNamespaces`),
keyed by (user id, cluster name); TTL omitted as for the client cache. -/
def UserNsCache := List ((String × String) × List Namespace)
deriving instance DecidableEq for UserNsCache

/-- Lookup in the User Namespace Cache. -/
def unsGet (cache : UserNsCache) (k : String × String) : Option (List Namespace) :=
  (cache.find? (fun p => p.1 == k)).map (·.2)

/-- Store into the User Namespace Cache. -/
def unsSet (cache : UserNsCache) (k : String × String) (nss : List Namespace) : UserNsCache :=
  (k, nss) :: cache.filter (fun p => ¬ p.1 == k)

/-- Lexicographic comparison of character lists by code point. -/
def charListLe : List Char → List Char → Bool
  | [], _ => true
  | _ :: _, [] => false
  | a :: as, b :: bs =>
    if a.toNat < b.toNat then true
    else if b.toNat < a.toNat then false
    else charListLe as bs

/-- Lexicographic string comparison by code point. -/
def strLeb (a b : String) : Bool := charListLe a.data b.data

/-- Insert a string into an already sorted list, keeping it sorted. -/
def insertSorted (x : String) : List String → List String
  | [] => [x]
  | y :: ys => if strLeb x y then x :: y :: ys else y :: insertSorted x ys

/-- Sort a list of names lexicographically. -/
def sortNames (l : List String) : List String := l.foldr insertSorted []

/-- Modelled from the spec: `Clusters.Hash`, a stable digest of the
lexicographically sorted cluster-name list. -/
def clustersHashOf (cs : List Cluster) : String :=
  String.intercalate "," (sortNames (cs.map Cluster.GetName))

/-- Modelled from the spec: the diff computed by `Clusters.Set` — the
symmetric difference by name: clusters of the new list whose name was
absent, and clusters of the old list whose name disappeared. -/
def clustersSetDiff (old new : List Cluster) : List Cluster × List Cluster :=
  (new.filter (fun c => ¬ old.any (fun o => o.name == c.name)),
   old.filter (fun o => ¬ new.any (fun c => c.name == o.name)))

/-- State of the `clustersManager` struct: the registry snapshot, the
recorded registry hash, the three caches, the watcher list together with
the allocation counter modelling pointer freshness, the set of closed
watcher channels, and the two cluster-update metrics. -/
structure ManagerState where
  clusters : List Cluster
  clustersHash : String
  clustersNamespaces : NsCache
  usersNamespaces : UserNsCache
  usersClients : ClientCache
  watchers : List Watcher
  nextWatcherId : Nat
  closedChans : List Nat
  opsUpdateClusters : Nat
  opsClustersCount : Nat
deriving DecidableEq

/-- Collaborator outcomes, one field per external factory the manager
calls: per-cluster server/user client construction, user clientset
construction, and the access-check collaborator. -/
structure Env where
  serverClientFor : String → Except String ClientVal
  userClientFor : String → String → Except String ClientVal
  userClientsetFor : String → String → Except String Nat
  filterAccessible : String → String → List Namespace → Except String (List Namespace)

/-- syncCaches (factory.go 364-373): recompute the registry hash; on a
mismatch with the recorded hash, clear the Namespace Cache and the User
Namespace Cache and record the new hash; otherwise do nothing. -/
def syncCaches (s : ManagerState) : ManagerState :=
  let newHash := clustersHashOf s.clusters
  if newHash ≠ s.clustersHash then
    { s with clustersNamespaces := ([] : NsCache),
             usersNamespaces := ([] : UserNsCache),
             clustersHash := newHash }
  else
    s

/-- Modelled from the spec: `ClientsPool.Add` registers a per-cluster
client, failing if a client for that cluster name is already present
(duplicate-add surfaces as an error, never a silent overwrite). -/
def poolAdd (pool : List PoolEntry) (cl : ClientVal) (c : Cluster) : Except String (List PoolEntry) :=
  if pool.any (fun e => e.clusterName == c.name) then
    .error ("cluster client already added: " ++ c.name)
  else
    .ok (pool ++ [{ clusterName := c.name, client := cl }])

/-- The principal id used as client-cache key: the sentinel server id when
no user is supplied (getOrCreateClient, factory.go 553-558), else the
user's own id. -/
def uidOf : Option UserPrincipal → String
  | none => "weave-gitops-server"
  | some u => u.ID

/-- getOrCreateClient (factory.go 550-584): a nil user is replaced by the
sentinel server principal; the User Client Cache is consulted first and a
hit returned as is; on a miss the client is built by the cluster's server
or user factory according to which identity was requested, stored, and
returned; a construction failure is returned with the cache untouched.
The per-client metrics counters of the source are not modelled. -/
def getOrCreateClient (env : Env) (user : Option UserPrincipal) (c : Cluster)
    (cache : ClientCache) : Except String ClientVal × ClientCache :=
  let uid := uidOf user
  let isServer := user.isNone
  match cacheGet cache (uid, c.name) with
  | some cl => (.ok cl, cache)
  | none =>
    let built := if isServer then env.serverClientFor c.name else env.userClientFor uid c.name
    match built with
    | .error e =>
      (.error ("failed creating client for cluster=" ++ c.name ++ ": " ++ e), cache)
    | .ok cl => (.ok cl, cacheSet cache (uid, c.name) cl)

/-- Outcome of the client-creation attempt for one cluster against a given
cache state, disregarding the cache update. -/
def clientCreation (env : Env) (user : Option UserPrincipal) (cache : ClientCache)
    (c : Cluster) : Except String ClientVal :=
  (getOrCreateClient env user c cache).1

/-- The per-cluster goroutine bodies of GetImpersonatedClient
(factory.go 385-401) and GetServerClient (factory.go 475-491), joined by
`wg.Wait`, rendered as a fold over the cluster list: each task resolves or
creates its client, a creation failure is recorded as a ClientError whose
message starts with `msg`, a pool-add failure likewise; successes land in
the pool.  `msg` is the per-call wrapping text, which differs between the
user and the server variant of the loop. -/
def fanOutClients (env : Env) (user : Option UserPrincipal) (msg : String) :
    List Cluster → List PoolEntry → ClientCache → List ClientError →
    List PoolEntry × ClientCache × List ClientError
  | [], pool, cache, errs => (pool, cache, errs)
  | c :: rest, pool, cache, errs =>
    match getOrCreateClient env user c cache with
    | (.error e, cache') =>
      fanOutClients env user msg rest pool cache'
        (errs ++ [{ ClusterName := c.name, Err := msg ++ e }])
    | (.ok cl, cache') =>
      match poolAdd pool cl c with
      | .error e =>
        fanOutClients env user msg rest pool cache'
          (errs ++ [{ ClusterName := c.name, Err := "failed adding cluster client to pool: " ++ e }])
      | .ok pool' => fanOutClients env user msg rest pool' cache' errs

/-- UpdateUserNamespaces (factory.go 505-533): for every known cluster,
read its cached namespace list, build the user's clientset, filter the
list through the access-check collaborator, and store the result in the
User Namespace Cache; a clientset or filter failure is logged and leaves
that cluster's entry unset without affecting the others. -/
def UpdateUserNamespaces (env : Env) (user : UserPrincipal) (s : ManagerState) : ManagerState :=
  s.clusters.foldl
    (fun st c =>
      let clusterNs := nsGet st.clustersNamespaces c.name
      match env.userClientsetFor user.ID c.name with
      | .error _ => st
      | .ok _ =>
        match env.filterAccessible user.ID c.name clusterNs with
        | .error _ => st
        | .ok filtered =>
          { st with usersNamespaces := unsSet st.usersNamespaces (user.ID, c.name) filtered })
    s

/-- GetUserNamespaces (factory.go 535-537), with `UsersNamespaces.GetAll`
modelled from the spec: for each known cluster with a cached entry for
this user, the entry keyed by cluster name; clusters without an entry are
omitted. -/
def GetUserNamespaces (user : UserPrincipal) (s : ManagerState) :
    List (String × List Namespace) :=
  s.clusters.filterMap
    (fun c => (unsGet s.usersNamespaces (user.ID, c.name)).map (fun nss => (c.name, nss)))

/-- userNsList (factory.go 539-548): return the cached per-user namespace
map when non-empty, else recompute it eagerly and read it again. -/
def userNsList (env : Env) (user : UserPrincipal) (s : ManagerState) :
    List (String × List Namespace) × ManagerState :=
  let userNamespaces := GetUserNamespaces user s
  if userNamespaces.length > 0 then
    (userNamespaces, s)
  else
    let s' := UpdateUserNamespaces env user s
    (GetUserNamespaces user s', s')

/-- GetImpersonatedClient (factory.go 375-413): a nil user is rejected at
once; otherwise one task per known cluster resolves or creates that
cluster's client for the user, failures are collected as ClientErrors, and
after the join the call returns the Aggregated Client over the successes
together with the user's namespace map and the combined error
(`ErrorOrNil`: none exactly when no task failed). -/
def GetImpersonatedClient (env : Env) (user : Option UserPrincipal) (s : ManagerState) :
    Option Client × Option GoError × ManagerState :=
  match user with
  | none => (none, some (.msg "no user supplied"), s)
  | some u =>
    let r := fanOutClients env (some u) "failed creating user client to pool: "
      s.clusters [] s.usersClients []
    let s1 := { s with usersClients := r.2.1 }
    let nsr := userNsList env u s1
    (some { pool := r.1, nsMap := nsr.1 },
     if r.2.2 = [] then none else some (.multi r.2.2),
     nsr.2)

/-- GetServerClient (factory.go 469-503): the same fan-out with the server
identity (nil user) and the server error prefix; the attached namespace
map is the raw Namespace Cache, not a user-filtered view. -/
def GetServerClient (env : Env) (s : ManagerState) :
    Option Client × Option GoError × ManagerState :=
  let r := fanOutClients env none "failed creating server client to pool: "
    s.clusters [] s.usersClients []
  (some { pool := r.1, nsMap := s.clustersNamespaces },
   if r.2.2 = [] then none else some (.multi r.2.2),
   { s with usersClients := r.2.1 })

/-- The lookup loop of GetImpersonatedClientForCluster (factory.go
420-430): `var cl cluster.Cluster` starts at the zero value (empty name,
see `Cluster`) and the first name match is kept. -/
def findClusterZ (clusters : List Cluster) (clusterName : String) : Cluster :=
  match clusters.find? (fun c => c.name == clusterName) with
  | some c => c
  | none => { name := "" }

/-- GetImpersonatedClientForCluster (factory.go 415-446): nil user is
rejected; an unknown cluster name (detected by the zero value's empty
name) yields the not-found error; otherwise the single client is resolved
or created, pooled, and wrapped with the user's namespace map. -/
def GetImpersonatedClientForCluster (env : Env) (user : Option UserPrincipal)
    (clusterName : String) (s : ManagerState) :
    Option Client × Option GoError × ManagerState :=
  match user with
  | none => (none, some (.msg "no user supplied"), s)
  | some u =>
    let cl := findClusterZ s.clusters clusterName
    if cl.GetName = "" then
      (none, some (.msg ("cluster not found: " ++ clusterName)), s)
    else
      match getOrCreateClient env (some u) cl s.usersClients with
      | (.error e, cache') =>
        (none, some (.msg ("failed creating cluster client: " ++ e)),
         { s with usersClients := cache' })
      | (.ok c, cache') =>
        match poolAdd [] c cl with
        | .error e =>
          (none, some (.msg ("failed adding cluster client to pool: " ++ e)),
           { s with usersClients := cache' })
        | .ok pool =>
          let s1 := { s with usersClients := cache' }
          let nsr := userNsList env u s1
          (some { pool := pool, nsMap := nsr.1 }, none, nsr.2)

/-- GetImpersonatedDiscoveryClient (factory.go 448-467): nil user is
rejected; the first cluster matching the name builds the user's clientset,
whose discovery interface is returned; no cluster matching yields the
not-found error.  The discovery handle is the clientset handle. -/
def GetImpersonatedDiscoveryClient (env : Env) (user : Option UserPrincipal)
    (clusterName : String) (s : ManagerState) : Option Nat × Option GoError :=
  match user with
  | none => (none, some (.msg "no user supplied"))
  | some u =>
    match s.clusters.find? (fun c => c.name == clusterName) with
    | some c =>
      match env.userClientsetFor u.ID c.name with
      | .error e => (none, some (.msg ("error creating client for cluster: " ++ e)))
      | .ok h => (some h, none)
    | none => (none, some (.msg ("cluster not found: " ++ clusterName)))

/-- UpdateClusters (factory.go 277-296): a fetch failure is returned
wrapped, touching nothing; on success the registry is replaced (with the
spec-modelled `Clusters.Set` diff), the update counter and cluster gauge
move, and when the diff is non-empty every registered watcher is notified
with the added/removed lists.  The fetch outcome is passed in as the
collaborator's result for this call; the notifications are returned as an
event list. -/
def UpdateClusters (fetched : Except String (List Cluster)) (s : ManagerState) :
    Option GoError × ManagerState × List NotifyEvent :=
  match fetched with
  | .error e => (some (.msg ("failed to fetch clusters: " ++ e)), s, [])
  | .ok clusters =>
    let diff := clustersSetDiff s.clusters clusters
    let s1 := { s with clusters := clusters,
                       opsUpdateClusters := s.opsUpdateClusters + 1,
                       opsClustersCount := clusters.length }
    let events :=
      if diff.1.length > 0 ∨ diff.2.length > 0 then
        s.watchers.map (fun w => { watcherId := w.id, Added := diff.1, Removed := diff.2 })
      else
        []
    (none, s1, events)

/-- Subscribe (factory.go 230-235): allocate a fresh watcher whose Updates
channel has buffer capacity 1, append it to the watcher list, and return
it.  Allocation freshness is modelled by the id counter. -/
def Subscribe (s : ManagerState) : Watcher × ManagerState :=
  let cw : Watcher := { id := s.nextWatcherId, chanCap := 1 }
  (cw, { s with watchers := s.watchers ++ [cw], nextWatcherId := s.nextWatcherId + 1 })

/-- RemoveWatcher (factory.go 238-247): rebuild the watcher list keeping
every entry other than the given one (Go compares pointers; ids model
pointer identity). -/
def RemoveWatcher (cw : Watcher) (s : ManagerState) : ManagerState :=
  { s with watchers := s.watchers.filter (fun w => ¬ w.id == cw.id) }

/-- ClustersWatcher.Unsubscribe (factory.go 208-211): remove the watcher
from the manager's list, then close its Updates channel. -/
def Unsubscribe (cw : Watcher) (s : ManagerState) : ManagerState :=
  let s' := RemoveWatcher cw s
  { s' with closedChans := cw.id :: s'.closedChans }

/-- Observable events of the two background goroutines started by Start
(factory.go 253-256): `ucRet` — an UpdateClusters call in watchClusters
returned (successfully or not); `send` — watchClusters signalled
`initialClustersLoad <- true`; `recv` — watchNamespaces completed
`<-cf.initialClustersLoad`; `un` — watchNamespaces invoked
UpdateNamespaces (the namespace listing and cache writes happen inside
this call). -/
inductive Ev where
  | ucRet
  | send
  | recv
  | un
deriving DecidableEq, Repr

/-- Joint control state of the two goroutines: `pc1` for watchClusters
(0 = before the first UpdateClusters, 1 = about to signal, 2 = polling
loop), `pc2` for watchNamespaces (0 = blocked on the channel receive,
1 = polling loop), and `sent` recording whether the initial-load signal
has been emitted.  The unbuffered channel is weakened to an asynchronous
flag — the send may complete before the receive — which is sound here:
every ordering the weaker model forbids, the rendezvous also forbids. -/
structure SysState where
  pc1 : Nat
  pc2 : Nat
  sent : Bool
deriving DecidableEq, Repr

/-- Interleaving small-step semantics of watchClusters (factory.go
258-274) and watchNamespaces (factory.go 298-315) running concurrently
after Start. -/
inductive Step : SysState → Ev → SysState → Prop where
  | uc1 (p2 : Nat) (b : Bool) : Step ⟨0, p2, b⟩ .ucRet ⟨1, p2, b⟩
  | send (p2 : Nat) : Step ⟨1, p2, false⟩ .send ⟨2, p2, true⟩
  | ucLoop (p2 : Nat) (b : Bool) : Step ⟨2, p2, b⟩ .ucRet ⟨2, p2, b⟩
  | recv (p1 : Nat) : Step ⟨p1, 0, true⟩ .recv ⟨p1, 1, true⟩
  | un (p1 : Nat) (b : Bool) : Step ⟨p1, 1, b⟩ .un ⟨p1, 1, b⟩

/-- Finite executions of the two-goroutine system: the recorded event
sequence between two control states. -/
inductive Trace : SysState → List Ev → SysState → Prop where
  | nil (s : SysState) : Trace s [] s
  | cons {s s' s'' : SysState} {e : Ev} {t : List Ev} :
      Step s e s' → Trace s' t s'' → Trace s (e :: t) s''

/-- Control state at Start: neither goroutine has run. -/
def initSys : SysState := ⟨0, 0, false⟩

/-- The pool entry produced for a cluster when its client creation against
a given cache succeeds, and nothing otherwise. -/
def creationEntry (env : Env) (user : Option UserPrincipal) (cache : ClientCache)
    (c : Cluster) : Option PoolEntry :=
  match clientCreation env user cache c with
  | .ok v => some { clusterName := c.name, client := v }
  | .error _ => none

/-- The tagged ClientError produced for a cluster when its client creation
against a given cache fails, and nothing otherwise; `msg` is the wrapping
prefix of the enclosing fan-out. -/
def creationFailure (env : Env) (user : Option UserPrincipal) (msg : String)
    (cache : ClientCache) (c : Cluster) : Option ClientError :=
  match clientCreation env user cache c with
  | .ok _ => none
  | .error e => some { ClusterName := c.name, Err := msg ++ e }

/-- Whether client creation for a cluster against a given cache succeeds. -/
def creationOK (env : Env) (user : Option UserPrincipal) (cache : ClientCache)
    (c : Cluster) : Bool :=
  match clientCreation env user cache c with
  | .ok _ => true
  | .error _ => false

/-- A concrete collaborator environment for evaluating the theorems:
construction against the cluster named "bad" fails, any other succeeds. -/
def envSample : Env :=
  { serverClientFor := fun n => if n = "bad" then .error "boom" else .ok { handle := 1 }
    userClientFor := fun _ n => if n = "bad" then .error "boom" else .ok { handle := 2 }
    userClientsetFor := fun _ n => if n = "bad" then .error "boom" else .ok 3
    filterAccessible := fun _ _ l => .ok l }

/-- A concrete manager state for evaluating the theorems. -/
def stateSample : ManagerState :=
  { clusters := [{ name := "a" }, { name := "bad" }, { name := "c" }]
    clustersHash := ""
    clustersNamespaces := [("a", [{ name := "ns1" }])]
    usersNamespaces := []
    usersClients := [(("alice", "c"), { handle := 7 })]
    watchers := [{ id := 0, chanCap := 1 }, { id := 1, chanCap := 1 }]
    nextWatcherId := 2
    closedChans := []
    opsUpdateClusters := 0
    opsClustersCount := 0 }

/-- The sample state with the registry hash already recorded as current. -/
def stateSample2 : ManagerState :=
  { stateSample with clustersHash := clustersHashOf stateSample.clusters }

/-- C2: syncCaches clears the Namespace Cache and the User Namespace Cache
when the registry hash differs from the recorded one, leaving the User
Client Cache untouched in both cases; when the hash is unchanged no cache
is cleared (the state is untouched entirely). -/
theorem syncCaches_spec (s : ManagerState) :
    (clustersHashOf s.clusters ≠ s.clustersHash →
      (syncCaches s).clustersNamespaces = ([] : NsCache) ∧
      (syncCaches s).usersNamespaces = ([] : UserNsCache) ∧
      (syncCaches s).usersClients = s.usersClients) ∧
    (clustersHashOf s.clusters = s.clustersHash → syncCaches s = s) := by
  constructor
  · intro h
    simp [syncCaches, h]
  · intro h
    simp [syncCaches, h]

/-- Witness for C2: both branches of syncCaches evaluated on concrete
states, one with a stale hash, one with the current hash. -/
theorem syncCaches_spec_w :
    ((syncCaches stateSample).clustersNamespaces = ([] : NsCache) ∧
     (syncCaches stateSample).usersNamespaces = ([] : UserNsCache) ∧
     (syncCaches stateSample).usersClients = stateSample.usersClients) ∧
    syncCaches stateSample2 = stateSample2 :=
  ⟨(syncCaches_spec stateSample).1 (by decide),
   (syncCaches_spec stateSample2).2 (by decide)⟩

/-- C4: a nil user is rejected with the "no user supplied" error by
GetImpersonatedClient, GetImpersonatedClientForCluster and
GetImpersonatedDiscoveryClient, with no client returned and the state
untouched — for every environment, so no collaborator is consulted. -/
theorem nilUser_spec (env : Env) (s : ManagerState) (clusterName : String) :
    GetImpersonatedClient env none s = (none, some (.msg "no user supplied"), s) ∧
    GetImpersonatedClientForCluster env none clusterName s =
      (none, some (.msg "no user supplied"), s) ∧
    GetImpersonatedDiscoveryClient env none clusterName s =
      (none, some (.msg "no user supplied")) :=
  ⟨rfl, rfl, rfl⟩

/-- C5: when the discovery fetch fails, UpdateClusters returns the wrapped
error, keeps the whole manager state (registry and metrics included)
unchanged, and notifies no watcher. -/
theorem updateClusters_fetchErr_spec (e : String) (s : ManagerState) :
    UpdateClusters (.error e) s =
      (some (.msg ("failed to fetch clusters: " ++ e)), s, []) := rfl

/-- C3: a non-nil user asking for a cluster name that is not among the
known clusters gets no client and the "cluster not found" error, with the
state unchanged; the equation holds for every environment, so no client is
constructed and no cache touched. -/
theorem clusterNotFound_spec (env : Env) (u : UserPrincipal) (clusterName : String)
    (s : ManagerState) (h : clusterName ∉ s.clusters.map Cluster.GetName) :
    GetImpersonatedClientForCluster env (some u) clusterName s =
      (none, some (.msg ("cluster not found: " ++ clusterName)), s) := by
  have hfind : s.clusters.find? (fun c => c.name == clusterName) = none := by
    rw [List.find?_eq_none]
    intro c hc
    simp only [beq_iff_eq]
    intro hEq
    exact h (hEq ▸ List.mem_map_of_mem Cluster.GetName hc)
  simp [GetImpersonatedClientForCluster, findClusterZ, hfind, Cluster.GetName]

/-- Witness for C3: the unknown name "nope" against the sample state. -/
theorem clusterNotFound_spec_w :
    GetImpersonatedClientForCluster envSample (some { ID := "alice" }) "nope" stateSample =
      (none, some (.msg "cluster not found: nope"), stateSample) :=
  clusterNotFound_spec envSample { ID := "alice" } "nope" stateSample (by decide)

/-- C10: GetImpersonatedClient with a non-nil user and GetServerClient
always return a non-nil aggregated client alongside whatever combined
error arises, for every cluster set and every outcome of the per-cluster
constructions. -/
theorem clientNonNil_spec (env : Env) (u : UserPrincipal) (s : ManagerState) :
    (GetImpersonatedClient env (some u) s).1.isSome = true ∧
    (GetServerClient env s).1.isSome = true :=
  ⟨rfl, rfl⟩

/-- C6: on a successful fetch, UpdateClusters notifies every registered
watcher with exactly the added/removed lists produced by the registry's
Set when at least one list is non-empty, and notifies nobody when both
are empty (the call also succeeds). -/
theorem updateClusters_notify_spec (clusters : List Cluster) (s : ManagerState) :
    ((clustersSetDiff s.clusters clusters).1 ≠ [] ∨
        (clustersSetDiff s.clusters clusters).2 ≠ [] →
      (UpdateClusters (.ok clusters) s).2.2 =
        s.watchers.map (fun w =>
          { watcherId := w.id,
            Added := (clustersSetDiff s.clusters clusters).1,
            Removed := (clustersSetDiff s.clusters clusters).2 })) ∧
    ((clustersSetDiff s.clusters clusters).1 = [] →
      (clustersSetDiff s.clusters clusters).2 = [] →
      (UpdateClusters (.ok clusters) s).2.2 = []) ∧
    (UpdateClusters (.ok clusters) s).1 = none := by
  refine ⟨?_, ?_, rfl⟩
  · intro h
    have hlen : (clustersSetDiff s.clusters clusters).1.length > 0 ∨
        (clustersSetDiff s.clusters clusters).2.length > 0 := by
      rcases h with h | h
      · exact Or.inl (List.length_pos.mpr h)
      · exact Or.inr (List.length_pos.mpr h)
    simp only [UpdateClusters, if_pos hlen]
  · intro h1 h2
    simp [UpdateClusters, h1, h2]

/-- Witness for C6: a fetch that adds one cluster to an empty registry
notifies both sample watchers; a fetch that changes nothing notifies
nobody. -/
theorem updateClusters_notify_spec_w :
    (UpdateClusters (.ok [{ name := "z" }]) { stateSample with clusters := [] }).2.2 =
      ({ stateSample with clusters := [] } : ManagerState).watchers.map (fun w =>
        { watcherId := w.id,
          Added := (clustersSetDiff ([] : List Cluster) [{ name := "z" }]).1,
          Removed := (clustersSetDiff ([] : List Cluster) [{ name := "z" }]).2 }) ∧
    (UpdateClusters (.ok stateSample.clusters) stateSample).2.2 = [] :=
  ⟨(updateClusters_notify_spec [{ name := "z" }] { stateSample with clusters := [] }).1
      (by decide),
   (updateClusters_notify_spec stateSample.clusters stateSample).2.1 (by decide) (by decide)⟩

/-- Filtering out one watcher by id equals erasing it when the listed ids
are distinct. -/
theorem filter_ne_id_eq_erase (l : List Watcher) (w : Watcher) :
    w ∈ l → (l.map Watcher.id).Nodup →
      l.filter (fun x => ¬ x.id == w.id) = l.erase w := by
  induction l with
  | nil => intro hmem _; exact absurd hmem (List.not_mem_nil w)
  | cons x xs ih =>
    intro hmem hnd
    have hnd' := List.nodup_cons.mp hnd
    by_cases hxw : x = w
    · subst hxw
      rw [List.erase_cons_head]
      have hxs : ∀ y ∈ xs, (y.id == x.id) = false := by
        intro y hy
        have hx : x.id ∉ xs.map Watcher.id := hnd'.1
        simp only [beq_eq_false_iff_ne, ne_eq]
        intro hEq
        exact hx (hEq ▸ List.mem_map_of_mem Watcher.id hy)
      have hself : xs.filter (fun y => ¬ y.id == x.id) = xs := by
        apply List.filter_eq_self.mpr
        intro y hy
        simp [hxs y hy]
      have hhead : (x :: xs).filter (fun y => ¬ y.id == x.id) =
          xs.filter (fun y => ¬ y.id == x.id) := by
        simp [List.filter_cons]
      rw [hhead, hself]
    · have hwxs : w ∈ xs := by
        rcases List.mem_cons.mp hmem with h | h
        · exact absurd h.symm hxw
        · exact h
      have hxid : (x.id == w.id) = false := by
        simp only [beq_eq_false_iff_ne, ne_eq]
        intro hEq
        exact hnd'.1 (hEq ▸ List.mem_map_of_mem Watcher.id hwxs)
      have hids : ¬ x.id = w.id := by
        simp only [beq_eq_false_iff_ne, ne_eq] at hxid
        exact hxid
      have hhead : (x :: xs).filter (fun y => ¬ y.id == w.id) =
          x :: xs.filter (fun y => ¬ y.id == w.id) := by
        simp [List.filter_cons, hids]
      rw [hhead, ih hwxs hnd'.2, List.erase_cons_tail]
      simp [beq_eq_false_iff_ne, hxw, hids]

/-- C9: Subscribe hands out a watcher whose channel buffer capacity is
exactly 1 and appends it to the watcher list; Unsubscribe removes exactly
that watcher (every other registered watcher stays, in order) and then
closes its channel. -/
theorem subscribeUnsubscribe_spec (s : ManagerState) (w : Watcher)
    (hmem : w ∈ s.watchers) (hnd : (s.watchers.map Watcher.id).Nodup) :
    (Subscribe s).1.chanCap = 1 ∧
    (Subscribe s).2.watchers = s.watchers ++ [(Subscribe s).1] ∧
    (Unsubscribe w s).watchers = s.watchers.erase w ∧
    (∀ w' ∈ s.watchers, w' ≠ w → w' ∈ (Unsubscribe w s).watchers) ∧
    w.id ∈ (Unsubscribe w s).closedChans := by
  have herase : (Unsubscribe w s).watchers = s.watchers.erase w := by
    show s.watchers.filter (fun x => ¬ x.id == w.id) = s.watchers.erase w
    exact filter_ne_id_eq_erase s.watchers w hmem hnd
  refine ⟨rfl, rfl, herase, ?_, ?_⟩
  · intro w' hw' hne
    rw [herase]
    exact (List.mem_erase_of_ne hne).mpr hw'
  · exact List.mem_cons_self w.id _

/-- Witness for C9: subscribing to and unsubscribing watcher 0 from the
sample state, which carries two registered watchers. -/
theorem subscribeUnsubscribe_spec_w :
    (Subscribe stateSample).1.chanCap = 1 ∧
    (Subscribe stateSample).2.watchers =
      stateSample.watchers ++ [(Subscribe stateSample).1] ∧
    (Unsubscribe { id := 0, chanCap := 1 } stateSample).watchers =
      stateSample.watchers.erase { id := 0, chanCap := 1 } ∧
    (∀ w' ∈ stateSample.watchers, w' ≠ { id := 0, chanCap := 1 } →
      w' ∈ (Unsubscribe { id := 0, chanCap := 1 } stateSample).watchers) ∧
    (0 : Nat) ∈ (Unsubscribe { id := 0, chanCap := 1 } stateSample).closedChans :=
  subscribeUnsubscribe_spec stateSample { id := 0, chanCap := 1 } (by decide) (by decide)

/-- C7: getOrCreateClient returns a cache hit unchanged; on a miss with
the server identity (nil user, sentinel id "weave-gitops-server") it
builds through the server-client factory, on a miss with a real user
through the user-client factory, storing the new client under the
(identity, cluster) key; a construction failure is returned with nothing
stored. -/
theorem getOrCreateClient_spec (env : Env) (user : Option UserPrincipal) (c : Cluster)
    (cache : ClientCache) :
    (∀ cl, cacheGet cache (uidOf user, c.name) = some cl →
      getOrCreateClient env user c cache = (.ok cl, cache)) ∧
    (user = none → cacheGet cache ("weave-gitops-server", c.name) = none →
      ∀ cl, env.serverClientFor c.name = .ok cl →
        getOrCreateClient env user c cache =
          (.ok cl, cacheSet cache ("weave-gitops-server", c.name) cl)) ∧
    (∀ u, user = some u → cacheGet cache (u.ID, c.name) = none →
      ∀ cl, env.userClientFor u.ID c.name = .ok cl →
        getOrCreateClient env user c cache =
          (.ok cl, cacheSet cache (u.ID, c.name) cl)) ∧
    (user = none → cacheGet cache ("weave-gitops-server", c.name) = none →
      ∀ e, env.serverClientFor c.name = .error e →
        getOrCreateClient env user c cache =
          (.error ("failed creating client for cluster=" ++ c.name ++ ": " ++ e), cache)) ∧
    (∀ u, user = some u → cacheGet cache (u.ID, c.name) = none →
      ∀ e, env.userClientFor u.ID c.name = .error e →
        getOrCreateClient env user c cache =
          (.error ("failed creating client for cluster=" ++ c.name ++ ": " ++ e), cache)) := by
  refine ⟨?_, ?_, ?_, ?_, ?_⟩
  · intro cl hGet
    simp [getOrCreateClient, hGet]
  · intro hU hGet cl hBuilt
    subst hU
    simp [getOrCreateClient, uidOf, hGet, hBuilt]
  · intro u hU hGet cl hBuilt
    subst hU
    simp [getOrCreateClient, uidOf, hGet, hBuilt]
  · intro hU hGet e hBuilt
    subst hU
    simp [getOrCreateClient, uidOf, hGet, hBuilt]
  · intro u hU hGet e hBuilt
    subst hU
    simp [getOrCreateClient, uidOf, hGet, hBuilt]

/-- Witness for C7: against the sample cache, user "alice" hits on cluster
"c", misses and stores on cluster "a", and fails without storing on
cluster "bad"; the server identity misses and stores on "a". -/
theorem getOrCreateClient_spec_w :
    getOrCreateClient envSample (some { ID := "alice" }) { name := "c" }
        stateSample.usersClients = (.ok { handle := 7 }, stateSample.usersClients) ∧
    getOrCreateClient envSample (some { ID := "alice" }) { name := "a" }
        stateSample.usersClients =
      (.ok { handle := 2 },
       cacheSet stateSample.usersClients ("alice", "a") { handle := 2 }) ∧
    getOrCreateClient envSample none { name := "a" } stateSample.usersClients =
      (.ok { handle := 1 },
       cacheSet stateSample.usersClients ("weave-gitops-server", "a") { handle := 1 }) ∧
    getOrCreateClient envSample (some { ID := "alice" }) { name := "bad" }
        stateSample.usersClients =
      (.error "failed creating client for cluster=bad: boom", stateSample.usersClients) :=
  ⟨(getOrCreateClient_spec envSample (some { ID := "alice" }) { name := "c" }
      stateSample.usersClients).1 { handle := 7 } (by decide),
   (getOrCreateClient_spec envSample (some { ID := "alice" }) { name := "a" }
      stateSample.usersClients).2.2.1 { ID := "alice" } rfl (by decide) { handle := 2 } rfl,
   (getOrCreateClient_spec envSample none { name := "a" }
      stateSample.usersClients).2.1 rfl (by decide) { handle := 1 } rfl,
   (getOrCreateClient_spec envSample (some { ID := "alice" }) { name := "bad" }
      stateSample.usersClients).2.2.2.2 { ID := "alice" } rfl (by decide) "boom" rfl⟩

/-- Executions split at any point of the recorded event list. -/
theorem trace_append_split (a : List Ev) :
    ∀ {s s'' : SysState} (b : List Ev), Trace s (a ++ b) s'' →
      ∃ m, Trace s a m ∧ Trace m b s'' := by
  induction a with
  | nil =>
    intro s s'' b h
    exact ⟨s, Trace.nil s, h⟩
  | cons e a ih =>
    intro s s'' b h
    cases h with
    | cons hstep htail =>
      obtain ⟨m, h1, h2⟩ := ih b htail
      exact ⟨m, Trace.cons hstep h1, h2⟩

/-- An execution ending in one more event factors into the shorter
execution and that final step. -/
theorem trace_snoc_inv {s s'' : SysState} {t : List Ev} {e : Ev}
    (h : Trace s (t ++ [e]) s'') : ∃ m, Trace s t m ∧ Step m e s'' := by
  obtain ⟨m, h1, h2⟩ := trace_append_split t [e] h
  cases h2 with
  | cons hstep htail =>
    cases htail with
    | nil => exact ⟨m, h1, hstep⟩

/-- History invariant of the two background loops: once the initial-load
flag is set, or the namespace loop is past its channel receive, the trace
already contains the signal and a completed UpdateClusters call; and once
watchClusters is past its first call, the trace contains that return. -/
theorem trace_inv : ∀ (t : List Ev) (s' : SysState), Trace initSys t s' →
    (s'.sent = true → Ev.send ∈ t ∧ Ev.ucRet ∈ t) ∧
    (s'.pc2 = 1 → Ev.send ∈ t ∧ Ev.ucRet ∈ t) ∧
    (1 ≤ s'.pc1 → Ev.ucRet ∈ t) := by
  intro t
  induction t using List.reverseRecOn with
  | nil =>
    intro s' h
    cases h
    simp [initSys]
  | append_singleton t e IH =>
    intro s'' h
    obtain ⟨m, h1, hstep⟩ := trace_snoc_inv h
    have ih := IH m h1
    cases hstep with
    | uc1 p2 b =>
      refine ⟨fun hs => ?_, fun hp => ?_, fun _ => ?_⟩
      · obtain ⟨ha, hb⟩ := ih.1 hs
        exact ⟨List.mem_append_left _ ha, List.mem_append_left _ hb⟩
      · obtain ⟨ha, hb⟩ := ih.2.1 hp
        exact ⟨List.mem_append_left _ ha, List.mem_append_left _ hb⟩
      · exact List.mem_append_right _ (List.mem_singleton_self _)
    | send p2 =>
      have hret : Ev.ucRet ∈ t := ih.2.2 (by simp)
      refine ⟨fun _ => ?_, fun hp => ?_, fun _ => ?_⟩
      · exact ⟨List.mem_append_right _ (List.mem_singleton_self _),
          List.mem_append_left _ hret⟩
      · exact ⟨List.mem_append_right _ (List.mem_singleton_self _),
          List.mem_append_left _ hret⟩
      · exact List.mem_append_left _ hret
    | ucLoop p2 b =>
      refine ⟨fun hs => ?_, fun hp => ?_, fun _ => ?_⟩
      · obtain ⟨ha, hb⟩ := ih.1 hs
        exact ⟨List.mem_append_left _ ha, List.mem_append_left _ hb⟩
      · obtain ⟨ha, hb⟩ := ih.2.1 hp
        exact ⟨List.mem_append_left _ ha, List.mem_append_left _ hb⟩
      · exact List.mem_append_right _ (List.mem_singleton_self _)
    | recv p1 =>
      have hflag := ih.1 rfl
      refine ⟨fun _ => ?_, fun _ => ?_, fun hp => ?_⟩
      · exact ⟨List.mem_append_left _ hflag.1, List.mem_append_left _ hflag.2⟩
      · exact ⟨List.mem_append_left _ hflag.1, List.mem_append_left _ hflag.2⟩
      · exact List.mem_append_left _ (ih.2.2 hp)
    | un p1 b =>
      refine ⟨fun hs => ?_, fun hp => ?_, fun hp1 => ?_⟩
      · obtain ⟨ha, hb⟩ := ih.1 hs
        exact ⟨List.mem_append_left _ ha, List.mem_append_left _ hb⟩
      · obtain ⟨ha, hb⟩ := ih.2.1 hp
        exact ⟨List.mem_append_left _ ha, List.mem_append_left _ hb⟩
      · exact List.mem_append_left _ (ih.2.2 hp1)

/-- C8: in every execution of the two goroutines started by Start, any
UpdateNamespaces invocation is preceded both by a completed UpdateClusters
call and by the one-shot initial-load signal; in particular the namespace
loop performs no listing or cache write before the first cluster refresh
attempt has completed and signalled. -/
theorem nsLoop_after_clusterLoad_spec (t t₁ t₂ : List Ev) (s' : SysState)
    (h : Trace initSys t s') (hsplit : t = t₁ ++ Ev.un :: t₂) :
    Ev.ucRet ∈ t₁ ∧ Ev.send ∈ t₁ := by
  subst hsplit
  obtain ⟨m, h1, h2⟩ := trace_append_split t₁ (Ev.un :: t₂) h
  cases h2 with
  | cons hstep htail =>
    cases hstep with
    | un p1 b =>
      have hinv := trace_inv t₁ ⟨p1, 1, b⟩ h1
      obtain ⟨hsend, hret⟩ := hinv.2.1 rfl
      exact ⟨hret, hsend⟩

/-- Witness for C8: the canonical execution — first refresh returns, the
signal is sent and received, then the first UpdateNamespaces runs — with
both required events found before the namespace step. -/
theorem nsLoop_after_clusterLoad_spec_w :
    Ev.ucRet ∈ [Ev.ucRet, Ev.send, Ev.recv] ∧ Ev.send ∈ [Ev.ucRet, Ev.send, Ev.recv] :=
  nsLoop_after_clusterLoad_spec [Ev.ucRet, Ev.send, Ev.recv, Ev.un]
    [Ev.ucRet, Ev.send, Ev.recv] [] ⟨2, 1, true⟩
    (Trace.cons (Step.uc1 0 false) (Trace.cons (Step.send 0)
      (Trace.cons (Step.recv 2) (Trace.cons (Step.un 2 true) (Trace.nil _))))) rfl

/-- Searching a filtered list equals searching the original when every
element the search accepts also passes the filter. -/
theorem find?_filter_of_imp {α : Type} (p q : α → Bool) :
    ∀ l : List α, (∀ x, p x = true → q x = true) → (l.filter q).find? p = l.find? p := by
  intro l h
  induction l with
  | nil => rfl
  | cons x xs ih =>
    by_cases hp : p x = true
    · have hq := h x hp
      rw [List.filter_cons_of_pos hq, List.find?_cons_of_pos _ hp, List.find?_cons_of_pos _ hp]
    · by_cases hqx : q x = true
      · rw [List.filter_cons_of_pos hqx, List.find?_cons_of_neg _ hp,
          List.find?_cons_of_neg _ hp, ih]
      · rw [List.filter_cons_of_neg (by simpa using hqx), List.find?_cons_of_neg _ hp, ih]

/-- Storing under one key leaves lookups of every other key unchanged. -/
theorem cacheGet_cacheSet_ne (cache : ClientCache) (k k' : String × String) (v : ClientVal)
    (hne : k ≠ k') : cacheGet (cacheSet cache k' v) k = cacheGet cache k := by
  unfold cacheGet cacheSet
  rw [List.find?_cons_of_neg]
  · congr 1
    apply find?_filter_of_imp
    intro x hx
    have hxk : x.1 = k := by simpa using hx
    simp [hxk, hne]
  · simp only [beq_iff_eq]
    exact fun hEq => hne hEq.symm

/-- Reduction of getOrCreateClient at the server identity. -/
theorem getOrCreateClient_none_eq (env : Env) (c : Cluster) (cache : ClientCache) :
    getOrCreateClient env none c cache =
      (match cacheGet cache ("weave-gitops-server", c.name) with
       | some cl => (.ok cl, cache)
       | none =>
         match env.serverClientFor c.name with
         | .error e =>
           (.error ("failed creating client for cluster=" ++ c.name ++ ": " ++ e), cache)
         | .ok cl => (.ok cl, cacheSet cache ("weave-gitops-server", c.name) cl)) := rfl

/-- Reduction of getOrCreateClient at a real user identity. -/
theorem getOrCreateClient_some_eq (env : Env) (u : UserPrincipal) (c : Cluster)
    (cache : ClientCache) :
    getOrCreateClient env (some u) c cache =
      (match cacheGet cache (u.ID, c.name) with
       | some cl => (.ok cl, cache)
       | none =>
         match env.userClientFor u.ID c.name with
         | .error e =>
           (.error ("failed creating client for cluster=" ++ c.name ++ ": " ++ e), cache)
         | .ok cl => (.ok cl, cacheSet cache (u.ID, c.name) cl)) := rfl

/-- getOrCreateClient changes the cache at most at its own
(identity, cluster) key: every other key reads as before. -/
theorem getOrCreateClient_cache_frame (env : Env) (user : Option UserPrincipal)
    (c : Cluster) (cache : ClientCache) (k : String × String)
    (hk : k ≠ (uidOf user, c.name)) :
    cacheGet (getOrCreateClient env user c cache).2 k = cacheGet cache k := by
  cases user with
  | none =>
    rw [getOrCreateClient_none_eq]
    cases hGet : cacheGet cache ("weave-gitops-server", c.name) with
    | some cl => rfl
    | none =>
      cases hB : env.serverClientFor c.name with
      | error e => rfl
      | ok cl => exact cacheGet_cacheSet_ne cache k _ cl hk
  | some u =>
    rw [getOrCreateClient_some_eq]
    cases hGet : cacheGet cache (u.ID, c.name) with
    | some cl => rfl
    | none =>
      cases hB : env.userClientFor u.ID c.name with
      | error e => rfl
      | ok cl => exact cacheGet_cacheSet_ne cache k _ cl hk

/-- The creation outcome for a cluster depends on the cache only through
the entry at its own (identity, cluster) key. -/
theorem clientCreation_congr (env : Env) (user : Option UserPrincipal) (c : Cluster)
    (cache₁ cache₂ : ClientCache)
    (h : cacheGet cache₁ (uidOf user, c.name) = cacheGet cache₂ (uidOf user, c.name)) :
    clientCreation env user cache₁ c = clientCreation env user cache₂ c := by
  cases user with
  | none =>
    show (getOrCreateClient env none c cache₁).1 = (getOrCreateClient env none c cache₂).1
    rw [getOrCreateClient_none_eq, getOrCreateClient_none_eq]
    have h' : cacheGet cache₁ ("weave-gitops-server", c.name) =
        cacheGet cache₂ ("weave-gitops-server", c.name) := h
    rw [h']
    cases cacheGet cache₂ ("weave-gitops-server", c.name) with
    | some cl => rfl
    | none => cases env.serverClientFor c.name <;> rfl
  | some u =>
    show (getOrCreateClient env (some u) c cache₁).1 = (getOrCreateClient env (some u) c cache₂).1
    rw [getOrCreateClient_some_eq, getOrCreateClient_some_eq]
    have h' : cacheGet cache₁ (u.ID, c.name) = cacheGet cache₂ (u.ID, c.name) := h
    rw [h']
    cases cacheGet cache₂ (u.ID, c.name) with
    | some cl => rfl
    | none => cases env.userClientFor u.ID c.name <;> rfl

/-- filterMap is determined by the function's values on the list. -/
theorem filterMap_congr_mem {α β : Type} (f g : α → Option β) :
    ∀ l : List α, (∀ x ∈ l, f x = g x) → l.filterMap f = l.filterMap g := by
  intro l h
  induction l with
  | nil => rfl
  | cons x xs ih =>
    rw [List.filterMap_cons, List.filterMap_cons, h x (List.mem_cons_self x xs),
      ih (fun y hy => h y (List.mem_cons_of_mem x hy))]

/-- Joint characterization of the fan-out fold: given pairwise-distinct
cluster names (the registry invariant) and a pool not yet holding any of
them, the final pool extends the initial one with exactly one entry per
cluster whose creation (judged against the entry cache) succeeded, and the
final error list extends the initial one with exactly one tagged
ClientError per cluster whose creation failed. -/
theorem fanOutClients_spec (env : Env) (user : Option UserPrincipal) (msg : String) :
    ∀ (clusters : List Cluster) (pool : List PoolEntry) (cache : ClientCache)
      (errs : List ClientError),
      (clusters.map Cluster.GetName).Nodup →
      (∀ c ∈ clusters, c.name ∉ pool.map PoolEntry.clusterName) →
      (fanOutClients env user msg clusters pool cache errs).1 =
          pool ++ clusters.filterMap (creationEntry env user cache) ∧
      (fanOutClients env user msg clusters pool cache errs).2.2 =
          errs ++ clusters.filterMap (creationFailure env user msg cache) := by
  intro clusters
  induction clusters with
  | nil =>
    intro pool cache errs _ _
    simp [fanOutClients]
  | cons c rest ih =>
    intro pool cache errs hnd hdisj
    rw [List.map_cons, List.nodup_cons] at hnd
    obtain ⟨hcn, hndr⟩ := hnd
    have hagree : ∀ c' ∈ rest,
        cacheGet (getOrCreateClient env user c cache).2 (uidOf user, c'.name) =
          cacheGet cache (uidOf user, c'.name) := by
      intro c' hc'
      apply getOrCreateClient_cache_frame
      intro hEq
      have hname : Cluster.GetName c' = Cluster.GetName c := congrArg Prod.snd hEq
      exact hcn (hname ▸ List.mem_map_of_mem Cluster.GetName hc')
    cases hres : getOrCreateClient env user c cache with
    | mk res cache₂ =>
      have hcc : clientCreation env user cache c = res := by
        unfold clientCreation
        rw [hres]
      have hframe : ∀ c' ∈ rest,
          cacheGet cache₂ (uidOf user, c'.name) = cacheGet cache (uidOf user, c'.name) := by
        intro c' hc'
        have := hagree c' hc'
        rwa [hres] at this
      have hEntryC : ∀ c' ∈ rest,
          creationEntry env user cache₂ c' = creationEntry env user cache c' := by
        intro c' hc'
        unfold creationEntry
        rw [clientCreation_congr env user c' cache₂ cache (hframe c' hc')]
      have hFailC : ∀ c' ∈ rest,
          creationFailure env user msg cache₂ c' = creationFailure env user msg cache c' := by
        intro c' hc'
        unfold creationFailure
        rw [clientCreation_congr env user c' cache₂ cache (hframe c' hc')]
      cases res with
      | error e =>
        have hstep : fanOutClients env user msg (c :: rest) pool cache errs =
            fanOutClients env user msg rest pool cache₂
              (errs ++ [{ ClusterName := c.name, Err := msg ++ e }]) := by
          simp [fanOutClients, hres]
        have hdisj' : ∀ c' ∈ rest, c'.name ∉ pool.map PoolEntry.clusterName :=
          fun c' hc' => hdisj c' (List.mem_cons_of_mem c hc')
        obtain ⟨ihp, ihe⟩ := ih pool cache₂
          (errs ++ [{ ClusterName := c.name, Err := msg ++ e }]) hndr hdisj'
        have hheadE : creationEntry env user cache c = none := by
          unfold creationEntry
          rw [hcc]
        have hheadF : creationFailure env user msg cache c =
            some { ClusterName := c.name, Err := msg ++ e } := by
          unfold creationFailure
          rw [hcc]
        constructor
        · rw [hstep, ihp, filterMap_congr_mem _ _ rest hEntryC,
            List.filterMap_cons, hheadE]
        · rw [hstep, ihe, filterMap_congr_mem _ _ rest hFailC,
            List.filterMap_cons, hheadF, List.append_assoc, List.singleton_append]
      | ok cl =>
        have hAny : pool.any (fun p => p.clusterName == c.name) = false := by
          rw [List.any_eq_false]
          intro p hp
          simp only [beq_iff_eq]
          intro hEq
          exact hdisj c (List.mem_cons_self c rest)
            (hEq ▸ List.mem_map_of_mem PoolEntry.clusterName hp)
        have hAdd : poolAdd pool cl c =
            .ok (pool ++ [{ clusterName := c.name, client := cl }]) := by
          unfold poolAdd
          rw [hAny]
          rfl
        have hstep : fanOutClients env user msg (c :: rest) pool cache errs =
            fanOutClients env user msg rest
              (pool ++ [{ clusterName := c.name, client := cl }]) cache₂ errs := by
          simp [fanOutClients, hres, hAdd]
        have hdisj' : ∀ c' ∈ rest, c'.name ∉
            (pool ++ ([{ clusterName := c.name, client := cl }] : List PoolEntry)).map
              PoolEntry.clusterName := by
          intro c' hc'
          rw [List.map_append, List.mem_append]
          rintro (hIn | hIn)
          · exact hdisj c' (List.mem_cons_of_mem c hc') hIn
          · have hname : Cluster.GetName c' = Cluster.GetName c := by simpa using hIn
            exact hcn (hname ▸ List.mem_map_of_mem Cluster.GetName hc')
        obtain ⟨ihp, ihe⟩ := ih (pool ++ [{ clusterName := c.name, client := cl }])
          cache₂ errs hndr hdisj'
        have hheadE : creationEntry env user cache c =
            some { clusterName := c.name, client := cl } := by
          unfold creationEntry
          rw [hcc]
        have hheadF : creationFailure env user msg cache c = none := by
          unfold creationFailure
          rw [hcc]
        constructor
        · rw [hstep, ihp, filterMap_congr_mem _ _ rest hEntryC,
            List.filterMap_cons, hheadE, List.append_assoc, List.singleton_append]
        · rw [hstep, ihe, filterMap_congr_mem _ _ rest hFailC,
            List.filterMap_cons, hheadF]

/-- C1: for every non-nil user and every known cluster set (whose names
are pairwise distinct, the registry invariant), GetImpersonatedClient
waits for all per-cluster tasks and returns an aggregated client whose
pool holds exactly one entry per cluster whose client creation succeeded,
together with a combined error that is nil precisely when every cluster's
creation succeeded and otherwise lists exactly one ClientError per failing
cluster, tagged with that cluster's name. -/
theorem getImpersonatedClient_spec (env : Env) (u : UserPrincipal) (s : ManagerState)
    (hnd : (s.clusters.map Cluster.GetName).Nodup) :
    ∃ cl : Client,
      (GetImpersonatedClient env (some u) s).1 = some cl ∧
      cl.pool = s.clusters.filterMap (creationEntry env (some u) s.usersClients) ∧
      ((GetImpersonatedClient env (some u) s).2.1 = none ↔
        ∀ c ∈ s.clusters, creationOK env (some u) s.usersClients c = true) ∧
      ((GetImpersonatedClient env (some u) s).2.1 ≠ none →
        (GetImpersonatedClient env (some u) s).2.1 =
          some (.multi (s.clusters.filterMap
            (creationFailure env (some u) "failed creating user client to pool: "
              s.usersClients)))) := by
  obtain ⟨h1, h2⟩ := fanOutClients_spec env (some u) "failed creating user client to pool: "
    s.clusters [] s.usersClients [] hnd (by simp)
  rw [List.nil_append] at h1 h2
  have hfst : (GetImpersonatedClient env (some u) s).1 =
      some { pool := (fanOutClients env (some u) "failed creating user client to pool: "
               s.clusters [] s.usersClients []).1,
             nsMap := (userNsList env u { s with usersClients :=
               (fanOutClients env (some u) "failed creating user client to pool: "
                 s.clusters [] s.usersClients []).2.1 }).1 } := rfl
  have herr : (GetImpersonatedClient env (some u) s).2.1 =
      if (fanOutClients env (some u) "failed creating user client to pool: "
          s.clusters [] s.usersClients []).2.2 = [] then none
      else some (.multi ((fanOutClients env (some u) "failed creating user client to pool: "
          s.clusters [] s.usersClients []).2.2)) := rfl
  have hokiff : ∀ c, (creationFailure env (some u) "failed creating user client to pool: "
      s.usersClients c = none) ↔ (creationOK env (some u) s.usersClients c = true) := by
    intro c
    unfold creationFailure creationOK
    cases clientCreation env (some u) s.usersClients c <;> simp
  refine ⟨_, hfst, h1, ?_, ?_⟩
  · rw [herr, h2]
    by_cases hC : s.clusters.filterMap (creationFailure env (some u)
        "failed creating user client to pool: " s.usersClients) = []
    · rw [if_pos hC]
      constructor
      · intro _ c hc
        exact (hokiff c).mp (List.filterMap_eq_nil_iff.mp hC c hc)
      · intro _
        rfl
    · rw [if_neg hC]
      constructor
      · intro hcontr
        exact absurd hcontr (Option.some_ne_none _)
      · intro hall
        exact absurd (List.filterMap_eq_nil_iff.mpr (fun c hc => (hokiff c).mpr (hall c hc))) hC
  · intro hne
    rw [herr, h2] at hne ⊢
    by_cases hC : s.clusters.filterMap (creationFailure env (some u)
        "failed creating user client to pool: " s.usersClients) = []
    · rw [if_pos hC] at hne
      exact absurd rfl hne
    · rw [if_neg hC]

/-- Witness for C1: the sample state, where creation succeeds on clusters
"a" (fresh) and "c" (cache hit) and fails on cluster "bad"; the combined
error is exactly the one ClientError tagged "bad". -/
theorem getImpersonatedClient_spec_w :
    (∃ cl : Client,
      (GetImpersonatedClient envSample (some { ID := "alice" }) stateSample).1 = some cl ∧
      cl.pool = stateSample.clusters.filterMap
        (creationEntry envSample (some { ID := "alice" }) stateSample.usersClients) ∧
      ((GetImpersonatedClient envSample (some { ID := "alice" }) stateSample).2.1 = none ↔
        ∀ c ∈ stateSample.clusters,
          creationOK envSample (some { ID := "alice" }) stateSample.usersClients c = true) ∧
      ((GetImpersonatedClient envSample (some { ID := "alice" }) stateSample).2.1 ≠ none →
        (GetImpersonatedClient envSample (some { ID := "alice" }) stateSample).2.1 =
          some (.multi (stateSample.clusters.filterMap
            (creationFailure envSample (some { ID := "alice" })
              "failed creating user client to pool: " stateSample.usersClients))))) ∧
    (GetImpersonatedClient envSample (some { ID := "alice" }) stateSample).2.1 =
      some (.multi
        [{ ClusterName := "bad",
           Err := "failed creating user client to pool: failed creating client for cluster=bad: boom" }]) :=
  ⟨getImpersonatedClient_spec envSample { ID := "alice" } stateSample (by decide), by decide⟩

end ClustersMngr
